import Mathlib

/-!
Verification development for the Kairos ML forecasting service
(`services/kairos-ml/app/main.py`).

The Python source is shallowly embedded: timestamps are `Int` epoch seconds,
series values and forecasts are `ℚ` (the claims under study never depend on
floating-point rounding), dictionaries are association lists in insertion
order, and fallible code returns `Except`.  The external forecasting engines
(statsforecast, prophet, neuralprophet) are opaque collaborators: they are
modelled as arbitrary functions supplied through an `Engines` record, while
every line of glue code that belongs to the repository (validation, season
selection, response assembly, batch orchestration) is embedded faithfully.
-/

namespace Kairos

/-! ## Temporal inference (`infer_step_seconds`, `infer_frequency`,
`infer_season_length`) -/

/-- The list of consecutive differences `ds[i] - ds[i-1]` that are strictly
positive, in order — the `diffs` list built by the loop in
`infer_step_seconds` (main.py lines 126-130). -/
def consecutive_pos_diffs (ds : List Int) : List Int :=
  ((ds.zip ds.tail).map (fun p => p.2 - p.1)).filter (fun d => 0 < d)

/-- `infer_step_seconds` (main.py lines 121-139).  Python sorts `diffs`
in place; on integers every correct sort yields the same list, so we use
`List.insertionSort`.  In the even case Python computes
`int((a + b) / 2)`, truncation toward zero; both middle elements are
positive here, so `Int` division agrees with it. -/
def infer_step_seconds (ds : List Int) : Int :=
  if ds.length < 2 then 60 * 60 * 24
  else
    let diffs := consecutive_pos_diffs ds
    if diffs.isEmpty then 60 * 60 * 24
    else
      let sorted := List.insertionSort (fun a b => a ≤ b) diffs
      let mid := sorted.length / 2
      if sorted.length % 2 = 1 then sorted.getD mid 0
      else (sorted.getD (mid - 1) 0 + sorted.getD mid 0) / 2

/-- `infer_frequency` (main.py lines 142-151): pandas frequency string from
the step length. -/
def infer_frequency (step_seconds : Int) : String :=
  if step_seconds ≤ 3600 then "h"
  else if step_seconds ≤ 86400 then "D"
  else if step_seconds ≤ 604800 then "W"
  else "MS"

/-- `infer_season_length` (main.py lines 154-171): default seasonal period
from the step length. -/
def infer_season_length (step_seconds : Int) : Int :=
  if step_seconds ≤ 3600 then 24
  else if step_seconds ≤ 86400 then 7
  else if step_seconds ≤ 604800 then 52
  else 12

/-! ## ETS season-length selection (`forecast_ets`, main.py lines 216-233)

Only the season-selection logic of `forecast_ets` is repository code; the
actual fitting is delegated to statsforecast.  `base` is
`int(config.get("seasonLength", infer_season_length(step_seconds)))` and
`n_obs = len(y)`. -/

/-- The data-sufficiency guard of `forecast_ets` (main.py lines 226-233). -/
def ets_select_season_length (n_obs : Nat) (step_seconds : Int) (base : Int) : Int :=
  if 2 * base ≤ (n_obs : Int) then base
  else if 26 ≤ n_obs ∧ step_seconds ≤ 604800 then 13
  else if 14 ≤ n_obs then 7
  else 1

/-- Season length used by the ETS adapter for history `ds`/`y` of length
`n_obs` and optional `seasonLength` configuration value (main.py lines
216-233 composed). -/
def forecast_ets_season_length (ds : List Int) (n_obs : Nat)
    (configSeason : Option Int) : Int :=
  let step := infer_step_seconds ds
  let base := configSeason.getD (infer_season_length step)
  ets_select_season_length n_obs step base

/-! ## Metrics calculator (`compute_metrics`, main.py lines 174-195)

The Python function returns `(mae, rmse, mape)` where
`rmse = sqrt(mean((t - p)^2))`.  The square root is irrational in general,
so the embedding returns the radicand `mse` in the middle slot; the code's
`rmse` is `Real.sqrt` of it (used as such in the theorems).  `rmse` is null
or zero exactly when `mse` is, so every claim about nullity or zero-ness
transfers verbatim. -/

/-- `compute_metrics` (main.py lines 174-195), with the RMSE slot holding
the mean squared error (see section comment). -/
def compute_metrics (y_true y_pred : List ℚ) :
    Option ℚ × Option ℚ × Option ℚ :=
  if y_true.length = 0 ∨ y_pred.length = 0 then (none, none, none)
  else
    let n := min y_true.length y_pred.length
    let t := y_true.take n
    let p := y_pred.take n
    let mae := ((t.zip p).map (fun q => |q.1 - q.2|)).sum / (n : ℚ)
    let mse := ((t.zip p).map (fun q => (q.1 - q.2) ^ 2)).sum / (n : ℚ)
    let masked := (t.zip p).filter (fun q => q.1 ≠ 0)
    let mape :=
      if masked.length = 0 then none
      else some ((masked.map (fun q => |(q.1 - q.2) / q.1|)).sum
                   / (masked.length : ℚ) * 100)
    (some mae, some mse, mape)

/-! ## ISO-8601 rendering (`iso_from_seconds`, main.py lines 111-118)

`datetime.fromtimestamp(seconds, tz=timezone.utc).replace(microsecond=0)
.isoformat().replace("+00:00", "Z")` renders the proleptic Gregorian civil
time `YYYY-MM-DDTHH:MM:SSZ`.  The `datetime` library is an external
collaborator; its documented epoch → civil conversion is embedded below
(the standard era-based civil-from-days algorithm).  Lean `Int` division
is floor division for the positive divisors used here, matching the
mathematical epoch decomposition that `fromtimestamp` implements. -/

/-- Decimal digits of `n`, most significant first; empty for `0`
(callers always pad, so `0` renders as `"00"` or `"0000"`). -/
def natCharsAux : Nat → Nat → List Char
  | 0, _ => []
  | fuel + 1, n =>
    if n = 0 then []
    else natCharsAux fuel (n / 10) ++ [Char.ofNat (48 + n % 10)]

/-- Decimal digit characters of `n`, most significant first. -/
def natChars (n : Nat) : List Char := natCharsAux (n + 1) n

/-- Left-pad a digit string with `0` to width `w`. -/
def padZero (w : Nat) (cs : List Char) : List Char :=
  List.replicate (w - cs.length) '0' ++ cs

/-- Civil date `(year, month, day)` of a day count relative to 1970-01-01
(proleptic Gregorian calendar). -/
def civil_from_days (z0 : Int) : Int × Int × Int :=
  let z := z0 + 719468
  let era := z / 146097
  let doe := z - era * 146097
  let yoe := (doe - doe / 1460 + doe / 36524 - doe / 146096) / 365
  let y := yoe + era * 400
  let doy := doe - (365 * yoe + yoe / 4 - yoe / 100)
  let mp := (5 * doy + 2) / 153
  let d := doy - (153 * mp + 2) / 5 + 1
  let m := if mp < 10 then mp + 3 else mp - 9
  (if m ≤ 2 then y + 1 else y, m, d)

/-- The character list `YYYY-MM-DDTHH:MM:SS` for an epoch-second value. -/
def isoDateTimeChars (seconds : Int) : List Char :=
  let days := seconds / 86400
  let sod := (seconds % 86400).toNat
  let ymd := civil_from_days days
  padZero 4 (natChars ymd.1.toNat) ++ '-' :: padZero 2 (natChars ymd.2.1.toNat)
    ++ '-' :: padZero 2 (natChars ymd.2.2.toNat)
    ++ 'T' :: padZero 2 (natChars (sod / 3600))
    ++ ':' :: padZero 2 (natChars (sod % 3600 / 60))
    ++ ':' :: padZero 2 (natChars (sod % 60))

/-- `iso_from_seconds` (main.py lines 111-118): the civil timestamp with a
literal `Z` suffix.  Python's `str.replace("+00:00", "Z")` rewrites the
sole `+00:00` occurrence — the UTC offset `isoformat` put at the end. -/
def iso_from_seconds (seconds : Int) : String :=
  String.mk (isoDateTimeChars seconds ++ ['Z'])

/-! ## Data model (pydantic models, main.py lines 42-103) -/

/-- The `ModelName` literal type (main.py line 35). -/
inductive ModelName where
  | ETS
  | PROPHET
  | ARIMA
  | THETA
  | NEURALPROPHET
deriving DecidableEq, Repr

/-- A regressor mapping: a Python `dict` name → value list, in insertion
order (keys are unique in a `dict`, but nothing below relies on that). -/
abbrev RegressorMap := List (String × List ℚ)

/-- `ForecastRequest` (main.py lines 42-53).  The open `config` map is only
consumed inside the adapters and is modelled where a claim needs it
(`forecast_ets_season_length`), so it is not carried here. -/
structure ForecastRequest where
  model : ModelName
  ds : List Int
  y : List ℚ
  horizon : Nat
  regressors : Option RegressorMap
  regressorsFuture : Option RegressorMap
deriving DecidableEq, Repr

/-- `ForecastPoint` (main.py lines 56-61). -/
structure ForecastPoint where
  t : String
  yhat : ℚ
  yhatLower : Option ℚ
  yhatUpper : Option ℚ
  isFuture : Bool
deriving DecidableEq, Repr

/-- `ForecastMetrics` (main.py lines 64-68). -/
structure ForecastMetrics where
  sampleCount : Nat
  mae : Option ℚ
  rmse : Option ℚ
  mape : Option ℚ
deriving DecidableEq, Repr

/-- `ForecastMeta` (main.py lines 71-75). -/
structure ForecastMeta where
  horizon : Nat
  historyCount : Nat
  intervalLevel : Option ℚ
  metrics : ForecastMetrics
deriving DecidableEq, Repr

/-- `ForecastResponse` (main.py lines 78-80). -/
structure ForecastResponse where
  points : List ForecastPoint
  meta : ForecastMeta
deriving DecidableEq, Repr

/-- `BatchForecastRequestItem` (main.py lines 88-89): a forecast request
plus a caller-supplied identifier. -/
structure BatchForecastRequestItem extends ForecastRequest where
  id : String
deriving DecidableEq, Repr

/-- `BatchForecastResponseItem` (main.py lines 96-99). -/
structure BatchForecastResponseItem where
  id : String
  points : List ForecastPoint
  meta : ForecastMeta
deriving DecidableEq, Repr

/-! ## Errors

`HTTPException(status_code, detail)` is embedded as a status plus a
structured rendition of each `detail` string raised in main.py (an
inductive rather than the literal message text; each constructor
corresponds to exactly one `raise` site). -/

/-- The distinct `detail` messages raised in `run_forecast`
(main.py lines 567-634). -/
inductive ErrorDetail where
  /-- "Training data length mismatch." (line 570) -/
  | trainingDataLengthMismatch
  /-- "At least 2 observations are required." (line 572) -/
  | tooFewObservations
  /-- "Regressors are only supported for PROPHET." (line 575) -/
  | regressorsOnlyForProphet
  /-- "Future regressor values were provided without regressors." (line 580) -/
  | futureWithoutRegressors
  /-- "Future regressor values are required when regressors are provided." (line 587) -/
  | futureRegressorsRequired
  /-- "Regressor {key} length mismatch." (line 591) -/
  | regressorLengthMismatch (key : String)
  /-- "Future regressor {key} is missing." (line 595) -/
  | futureRegressorMissing (key : String)
  /-- "Future regressor {key} length mismatch." (line 603) -/
  | futureRegressorLengthMismatch (key : String)
  /-- "Forecast failed: {message}" (line 634) — the dispatcher error
  boundary wrapping any adapter/backend exception. -/
  | forecastFailed (message : String)
deriving DecidableEq, Repr

/-- An `HTTPException`: status code plus detail. -/
structure HTTPError where
  status : Nat
  detail : ErrorDetail
deriving DecidableEq, Repr

/-! ## Request validation (main.py lines 568-604) -/

/-- The loop over `req.regressors.items()` (main.py lines 589-596): each
regressor must have history length and a matching key in
`regressorsFuture`; the first violation raises. -/
def check_regressors (yLen : Nat) (futs : RegressorMap) :
    RegressorMap → Except HTTPError Unit
  | [] => .ok ()
  | kv :: rest =>
    if kv.2.length ≠ yLen then
      .error ⟨400, .regressorLengthMismatch kv.1⟩
    else if (futs.lookup kv.1).isNone then
      .error ⟨400, .futureRegressorMissing kv.1⟩
    else check_regressors yLen futs rest

/-- The loop over `req.regressorsFuture.items()` (main.py lines 598-604):
each future value list must have length `horizon`. -/
def check_future_lengths (horizon : Nat) :
    RegressorMap → Except HTTPError Unit
  | [] => .ok ()
  | kv :: rest =>
    if kv.2.length ≠ horizon then
      .error ⟨400, .futureRegressorLengthMismatch kv.1⟩
    else check_future_lengths horizon rest

/-- The validation prefix of `run_forecast` (main.py lines 568-604), in
source order. -/
def validate_forecast_request (req : ForecastRequest) :
    Except HTTPError Unit :=
  if req.ds.length ≠ req.y.length then
    .error ⟨400, .trainingDataLengthMismatch⟩
  else if req.ds.length < 2 then
    .error ⟨400, .tooFewObservations⟩
  else if req.regressors.isSome ∧ req.model ≠ .PROPHET then
    .error ⟨400, .regressorsOnlyForProphet⟩
  else if req.regressorsFuture.isSome ∧ req.regressors.isNone then
    .error ⟨400, .futureWithoutRegressors⟩
  else
    match req.regressors, req.regressorsFuture with
    | some _, none => .error ⟨400, .futureRegressorsRequired⟩
    | some regs, some futs =>
      match check_regressors req.y.length futs regs with
      | .error e => .error e
      | .ok _ => check_future_lengths req.horizon futs
    | none, some futs => check_future_lengths req.horizon futs
    | none, none => .ok ()

/-! ## Backend adapters and dispatch (main.py lines 203-494, 610-634)

The statistical libraries are external collaborators; an `Engines` record
supplies their behaviour as arbitrary functions.  A raised exception is an
`Except.error` carrying the message.  Repository glue inside the adapters
— the prophet regressor checks and the neuralprophet all-`None` bounds —
is embedded explicitly. -/

/-- A backend output triple `(yhat, yhat_lower, yhat_upper)`. -/
abbrev BackendTriple := List ℚ × List (Option ℚ) × List (Option ℚ)

/-- Opaque engine behaviours, one per adapter.  The neuralprophet engine
yields only `yhat`; the adapter itself fabricates the bounds
(main.py lines 488-492). -/
structure Engines where
  ets : List Int → List ℚ → Nat → Except String BackendTriple
  arima : List Int → List ℚ → Nat → Except String BackendTriple
  theta : List Int → List ℚ → Nat → Except String BackendTriple
  prophet : List Int → List ℚ → Nat → Option RegressorMap →
    Option RegressorMap → Except String BackendTriple
  neuralprophet : List Int → List ℚ → Nat → Except String (List ℚ)

/-- The regressor-column loop of `forecast_prophet`
(main.py lines 381-385): every regressor list must match the history
length. -/
def prophet_check_regressors (yLen : Nat) :
    RegressorMap → Except String Unit
  | [] => .ok ()
  | kv :: rest =>
    if kv.2.length ≠ yLen then
      .error ("Regressor " ++ kv.1 ++ " length mismatch.")
    else prophet_check_regressors yLen rest

/-- The future-regressor loop of `forecast_prophet`
(main.py lines 409-418): every regressor key needs a future list of
length `horizon`. -/
def prophet_check_future (horizon : Nat) (futs : RegressorMap) :
    RegressorMap → Except String Unit
  | [] => .ok ()
  | kv :: rest =>
    match futs.lookup kv.1 with
    | none => .error ("Future regressor " ++ kv.1 ++ " is missing.")
    | some vs =>
      if vs.length ≠ horizon then
        .error ("Future regressor " ++ kv.1 ++ " length mismatch.")
      else prophet_check_future horizon futs rest

/-- `forecast_prophet` (main.py lines 344-427): repository-side regressor
checks around the opaque prophet engine. -/
def forecast_prophet (eg : Engines) (ds : List Int) (y : List ℚ)
    (horizon : Nat) (regs? futs? : Option RegressorMap) :
    Except String BackendTriple :=
  match regs? with
  | none => eg.prophet ds y horizon none none
  | some regs =>
    match prophet_check_regressors y.length regs with
    | .error e => .error e
    | .ok _ =>
      match futs? with
      | none =>
        .error "Future regressor values are required when regressors are provided."
      | some futs =>
        match prophet_check_future horizon futs regs with
        | .error e => .error e
        | .ok _ => eg.prophet ds y horizon (some regs) (some futs)

/-- `forecast_neuralprophet` (main.py lines 430-494): the engine's `yhat`
plus all-`None` bound lists of the same length (lines 488-492). -/
def forecast_neuralprophet (eg : Engines) (ds : List Int) (y : List ℚ)
    (horizon : Nat) : Except String BackendTriple :=
  match eg.neuralprophet ds y horizon with
  | .error e => .error e
  | .ok yhat =>
    .ok (yhat, List.replicate yhat.length none, List.replicate yhat.length none)

/-- The model dispatch inside the `try` block of `run_forecast`
(main.py lines 610-628). -/
def dispatch (eg : Engines) (req : ForecastRequest) :
    Except String BackendTriple :=
  match req.model with
  | .ETS => eg.ets req.ds req.y req.horizon
  | .PROPHET =>
    forecast_prophet eg req.ds req.y req.horizon req.regressors req.regressorsFuture
  | .ARIMA => eg.arima req.ds req.y req.horizon
  | .THETA => eg.theta req.ds req.y req.horizon
  | .NEURALPROPHET => forecast_neuralprophet eg req.ds req.y req.horizon

/-! ## Response assembly (main.py lines 606-665) -/

/-- The response-point loop (main.py lines 637-647):
`enumerate(zip(yhat, yhat_lower, yhat_upper), start=1)` with timestamp
`last_ds + step * i`. -/
def build_points (last_ds step : Int) (yhat : List ℚ)
    (lo hi : List (Option ℚ)) : List ForecastPoint :=
  ((yhat.zip (lo.zip hi)).enum).map (fun p =>
    { t := iso_from_seconds (last_ds + step * ((p.1 : Int) + 1))
      yhat := p.2.1
      yhatLower := p.2.2.1
      yhatUpper := p.2.2.2
      isFuture := true })

/-- The response envelope (main.py lines 606-608 and 636-665):
`interval_level` is fixed at `0.95` and reported only when some point has
a non-null lower bound; the default path emits null metrics (line 651). -/
def assemble_response (req : ForecastRequest) (out : BackendTriple) :
    ForecastResponse :=
  let step := infer_step_seconds req.ds
  let last_ds := req.ds.getLastD 0
  let points := build_points last_ds step out.1 out.2.1 out.2.2
  { points := points
    meta :=
      { horizon := req.horizon
        historyCount := req.ds.length
        intervalLevel :=
          if points.any (fun p => p.yhatLower.isSome) then some (0.95 : ℚ)
          else none
        metrics :=
          { sampleCount := req.ds.length
            mae := none
            rmse := none
            mape := none } } }

/-- `run_forecast` (main.py lines 567-665): validate, dispatch inside the
error boundary (any adapter exception becomes a 500 "Forecast failed"),
then assemble the response. -/
def run_forecast (eg : Engines) (req : ForecastRequest) :
    Except HTTPError ForecastResponse :=
  match validate_forecast_request req with
  | .error e => .error e
  | .ok _ =>
    match dispatch eg req with
    | .error msg => .error ⟨500, .forecastFailed msg⟩
    | .ok out => .ok (assemble_response req out)

/-- `forecast_batch` (main.py lines 557-564): the list comprehension
`[BatchForecastResponseItem(id=item.id, **run_forecast(item).model_dump())
for item in req.items]` — items evaluated in order, and an exception
raised by `run_forecast` propagates out of the whole comprehension. -/
def forecast_batch (eg : Engines) :
    List BatchForecastRequestItem →
    Except HTTPError (List BatchForecastResponseItem)
  | [] => .ok []
  | item :: rest =>
    match run_forecast eg item.toForecastRequest with
    | .error e => .error e
    | .ok resp =>
      match forecast_batch eg rest with
      | .error e => .error e
      | .ok others => .ok (⟨item.id, resp.points, resp.meta⟩ :: others)

/-! ## Claim-side reference definitions

These two definitions follow the wording of the specification (not the
source); each is compared against the corresponding source-derived
definition above. -/

/-- Median of a multiset of integers as worded in the spec: sort
ascending; odd cardinality takes the middle element; even cardinality
averages the two middle values, truncated to a whole second (the values
compared here are positive, so every integer-division convention
agrees). -/
def median_of_multiset (m : Multiset Int) : Int :=
  let l := m.sort (fun a b => a ≤ b)
  if l.length % 2 = 1 then l.getD (l.length / 2) 0
  else (l.getD (l.length / 2 - 1) 0 + l.getD (l.length / 2) 0) / 2

/-- The season-length fallback ladder as worded in claim C4: when fewer
than two full cycles of the nominal period exist, degrade through 13,
then 7, then 1, stopping at the first rung with two full cycles of
history (the wording mentions no condition on the step length). -/
def ets_season_ladder_claim (n_obs : Nat) (base : Int) : Int :=
  if 2 * base ≤ (n_obs : Int) then base
  else if 26 ≤ n_obs then 13
  else if 14 ≤ n_obs then 7
  else 1

/-! ## Concrete fixtures for witnesses and counterexamples -/

/-- Engine fixture: ETS raises, every other engine succeeds. -/
def enginesEtsBoom : Engines where
  ets := fun _ _ _ => .error "boom"
  arima := fun _ _ _ => .ok ([0], [none], [none])
  theta := fun _ _ _ => .ok ([1], [none], [none])
  prophet := fun _ _ _ _ _ => .ok ([5], [some 4], [some 6])
  neuralprophet := fun _ _ _ => .ok [0]

/-- A well-formed THETA request over a two-day daily history. -/
def reqTheta : ForecastRequest :=
  { model := .THETA, ds := [0, 86400], y := [1, 1], horizon := 1
    regressors := none, regressorsFuture := none }

/-- A well-formed ETS request (the engine fixture makes its backend
raise). -/
def reqEts : ForecastRequest :=
  { model := .ETS, ds := [0, 86400], y := [1, 1], horizon := 1
    regressors := none, regressorsFuture := none }

/-- A well-formed NEURALPROPHET request. -/
def reqNeural : ForecastRequest :=
  { model := .NEURALPROPHET, ds := [0, 86400], y := [1, 1], horizon := 1
    regressors := none, regressorsFuture := none }

/-- An ETS request carrying regressors (a PROPHET-only capability). -/
def reqEtsWithRegressors : ForecastRequest :=
  { model := .ETS, ds := [0, 86400], y := [1, 1], horizon := 1
    regressors := some [("x", [1])], regressorsFuture := none }

/-- A PROPHET request whose `regressorsFuture` carries the extra key `b`
absent from `regressors`, with the correct horizon length. -/
def reqExtraFutureKey : ForecastRequest :=
  { model := .PROPHET, ds := [0, 86400], y := [1, 2], horizon := 1
    regressors := some [("a", [1, 2])]
    regressorsFuture := some [("a", [1]), ("b", [2])] }

/-- A PROPHET request with symmetric regressor maps of correct lengths. -/
def reqProphetValid : ForecastRequest :=
  { model := .PROPHET, ds := [0, 86400], y := [1, 2], horizon := 1
    regressors := some [("a", [1, 2])], regressorsFuture := some [("a", [1])] }

/-- The three-item batch of claim C1: items 1 and 3 use THETA (whose
engine fixture succeeds), item 2 uses ETS (whose engine fixture
raises). -/
def batchItems : List BatchForecastRequestItem :=
  [⟨reqTheta, "item-1"⟩, ⟨reqEts, "item-2"⟩, ⟨reqTheta, "item-3"⟩]

/-- Twenty-six timestamps spaced 604801 seconds apart: one second coarser
than weekly, so `infer_step_seconds` yields 604801. -/
def dsCoarse : List Int := (List.range 26).map (fun i => 604801 * (i : Int))

/-! ## Helper lemmas -/

lemma consecutive_pos_diffs_pos {ds : List Int} {d : Int}
    (hd : d ∈ consecutive_pos_diffs ds) : 0 < d := by
  have h := List.mem_filter.mp hd
  simpa using h.2

lemma insertionSort_le_eq_multiset_sort (l : List Int) :
    List.insertionSort (fun a b => a ≤ b) l
      = Multiset.sort (fun a b => a ≤ b) (l : Multiset Int) := by
  apply List.eq_of_perm_of_sorted (r := fun a b : Int => a ≤ b)
  · exact (List.perm_insertionSort _ l).trans
      (Multiset.coe_eq_coe.mp (Multiset.sort_eq _ (l : Multiset Int))).symm
  · exact List.sorted_insertionSort _ l
  · exact Multiset.sort_sorted _ _

lemma filter_fst_ne_zero_eq_nil_iff (t q : List ℚ) (hlen : t.length ≤ q.length) :
    (t.zip q).filter (fun r => r.1 ≠ 0) = [] ↔ ∀ x ∈ t, x = 0 := by
  rw [List.filter_eq_nil_iff]
  constructor
  · intro h x hx
    obtain ⟨i, hi, hix⟩ := List.mem_iff_getElem.mp hx
    have hiz : i < (t.zip q).length := by
      rw [List.length_zip]
      omega
    have h2 := h ((t.zip q)[i]) (List.getElem_mem hiz)
    rw [List.getElem_zip] at h2
    simp at h2
    rw [← hix]
    exact h2
  · intro h r hr
    obtain ⟨x, y⟩ := r
    have hx := (List.of_mem_zip hr).1
    simp [h x hx]

lemma run_forecast_ok_inv {eg : Engines} {req : ForecastRequest}
    {resp : ForecastResponse} (h : run_forecast eg req = .ok resp) :
    validate_forecast_request req = .ok ()
      ∧ ∃ out, dispatch eg req = .ok out ∧ resp = assemble_response req out := by
  unfold run_forecast at h
  split at h
  · exact absurd h (by simp)
  · rename_i u hv
    split at h
    · exact absurd h (by simp)
    · rename_i out hd
      injection h with h2
      cases u
      exact ⟨hv, out, hd, h2.symm⟩

lemma assemble_intervalLevel (req : ForecastRequest) (out : BackendTriple) :
    (assemble_response req out).meta.intervalLevel =
      if (assemble_response req out).points.any (fun p => p.yhatLower.isSome)
      then some (0.95 : ℚ) else none := rfl

lemma dispatch_neuralprophet {eg : Engines} {req : ForecastRequest}
    (hm : req.model = .NEURALPROPHET) :
    dispatch eg req = forecast_neuralprophet eg req.ds req.y req.horizon := by
  unfold dispatch
  rw [hm]

lemma build_points_lower_none (last_ds step : Int) (ys : List ℚ) (n : Nat)
    (hi : List (Option ℚ)) :
    ∀ pt ∈ build_points last_ds step ys (List.replicate n none) hi,
      pt.yhatLower = none := by
  intro pt hpt
  unfold build_points at hpt
  obtain ⟨r, hr, hrpt⟩ := List.mem_map.mp hpt
  have hr2 : r.2 ∈ ys.zip ((List.replicate n none).zip hi) := by
    have hmm := List.mem_map_of_mem Prod.snd hr
    rwa [List.enum_map_snd] at hmm
  rw [← hrpt]
  have h3 := (List.of_mem_zip (show (r.2.1, r.2.2) ∈ _ from hr2)).2
  have h4 := (List.of_mem_zip (show (r.2.2.1, r.2.2.2) ∈ _ from h3)).1
  exact List.eq_of_mem_replicate h4

lemma digit_char_bounds : ∀ k < 10, 48 ≤ (Char.ofNat (48 + k)).toNat
    ∧ (Char.ofNat (48 + k)).toNat ≤ 57 := by decide

lemma natCharsAux_digits :
    ∀ (fuel n : Nat), ∀ c ∈ natCharsAux fuel n, 48 ≤ c.toNat ∧ c.toNat ≤ 57 := by
  intro fuel
  induction fuel with
  | zero =>
    intro n c hc
    simp [natCharsAux] at hc
  | succ fuel ih =>
    intro n c hc
    unfold natCharsAux at hc
    by_cases hn : n = 0
    · simp [hn] at hc
    · rw [if_neg hn] at hc
      rcases List.mem_append.mp hc with h | h
      · exact ih _ _ h
      · simp only [List.mem_singleton] at h
        subst h
        exact digit_char_bounds _ (Nat.mod_lt _ (by norm_num))

lemma padZero_natChars_digits (w n : Nat) :
    ∀ c ∈ padZero w (natChars n), 48 ≤ c.toNat ∧ c.toNat ≤ 57 := by
  intro c hc
  rcases List.mem_append.mp hc with h | h
  · rw [List.eq_of_mem_replicate h]
    decide
  · exact natCharsAux_digits _ _ _ h

lemma no_dot_padZero (w n : Nat) : ∀ c ∈ padZero w (natChars n), c ≠ '.' := by
  intro c hc heq
  have hb := padZero_natChars_digits w n c hc
  rw [heq] at hb
  exact absurd hb.1 (by decide)

lemma isoDateTimeChars_no_dot (s : Int) : '.' ∉ isoDateTimeChars s := by
  intro hmem
  unfold isoDateTimeChars at hmem
  have hpad : ∀ w n, ('.' ∈ padZero w (natChars n)) = False := fun w n =>
    eq_false (fun hc => no_dot_padZero w n '.' hc rfl)
  simp [List.mem_append, List.mem_cons, hpad] at hmem

lemma iso_from_seconds_shape (s : Int) :
    (iso_from_seconds s).data.getLast? = some 'Z'
      ∧ '.' ∉ (iso_from_seconds s).data := by
  constructor
  · show (isoDateTimeChars s ++ ['Z']).getLast? = some 'Z'
    exact List.getLast?_concat _
  · show '.' ∉ isoDateTimeChars s ++ ['Z']
    intro hmem
    rcases List.mem_append.mp hmem with h | h
    · exact isoDateTimeChars_no_dot s h
    · simp at h

lemma build_points_get (last_ds step : Int) (ys : List ℚ)
    (lo hi : List (Option ℚ)) (i : Nat)
    (h : i < (build_points last_ds step ys lo hi).length) :
    ((build_points last_ds step ys lo hi).get ⟨i, h⟩).t
        = iso_from_seconds (last_ds + step * ((i : Int) + 1))
      ∧ ((build_points last_ds step ys lo hi).get ⟨i, h⟩).isFuture = true := by
  have hlen : i < ((ys.zip (lo.zip hi)).enum).length := by
    simpa [build_points] using h
  rw [List.get_eq_getElem]
  unfold build_points
  rw [List.getElem_map]
  rw [List.getElem_enum]
  exact ⟨rfl, rfl⟩

lemma check_regressors_ok_iff (yLen : Nat) (futs : RegressorMap) :
    ∀ regs : RegressorMap,
      (check_regressors yLen futs regs = .ok () ↔
        ∀ kv ∈ regs, kv.2.length = yLen ∧ (futs.lookup kv.1).isSome) := by
  intro regs
  induction regs with
  | nil => simp [check_regressors]
  | cons kv rest ih =>
    simp only [check_regressors, List.forall_mem_cons]
    split_ifs with h1 h2
    · simp [h1]
    · rw [Option.isNone_iff_eq_none] at h2
      simp [h2]
    · have h2s : (futs.lookup kv.1).isSome := by
        cases hlk : List.lookup kv.1 futs
        · rw [hlk] at h2
          simp at h2
        · simp
      simp only [not_not] at h1
      simp [h1, h2s, ih]

lemma check_future_lengths_ok_iff (horizon : Nat) :
    ∀ futs : RegressorMap,
      (check_future_lengths horizon futs = .ok () ↔
        ∀ kv ∈ futs, kv.2.length = horizon) := by
  intro futs
  induction futs with
  | nil => simp [check_future_lengths]
  | cons kv rest ih =>
    simp only [check_future_lengths, List.forall_mem_cons]
    split_ifs with h1
    · simp [h1]
    · simp only [not_not] at h1
      simp [h1, ih]

/-! ## Claim C1 — batch error isolation -/

/-- C1 counterexample: a 3-item batch whose second item (ETS) hits a
raising backend while items 1 and 3 (THETA) would succeed does NOT return
per-item results — `forecast_batch` returns a single error and no item of
the batch receives a result, although item 1 alone succeeds.  This refutes
the claim that a k-th-item backend failure leaves every other item with a
valid result and the failing item with its own error detail. -/
theorem batch_item_failure_aborts_batch_counterexample :
    forecast_batch enginesEtsBoom batchItems
        = .error ⟨500, .forecastFailed "boom"⟩
      ∧ run_forecast enginesEtsBoom reqTheta
          = .ok (assemble_response reqTheta ([1], [none], [none])) :=
  ⟨rfl, rfl⟩

/-- C1 (amended): batch items are processed sequentially in submission
order; when every item succeeds the response echoes each caller-supplied
identifier verbatim in the same order, but the first item whose pipeline
fails aborts the whole batch with that item's error (fail-fast, not
per-item isolation). -/
theorem batch_runs_items_in_order_and_fails_fast :
    (∀ (eg : Engines) (items : List BatchForecastRequestItem),
      (∀ it ∈ items, ∃ r, run_forecast eg it.toForecastRequest = .ok r) →
      ∃ resps, forecast_batch eg items = .ok resps
        ∧ resps.map BatchForecastResponseItem.id
            = items.map BatchForecastRequestItem.id)
    ∧ (∀ (eg : Engines) (pre : List BatchForecastRequestItem)
        (it : BatchForecastRequestItem) (post : List BatchForecastRequestItem)
        (e : HTTPError),
      (∀ p ∈ pre, ∃ r, run_forecast eg p.toForecastRequest = .ok r) →
      run_forecast eg it.toForecastRequest = .error e →
      forecast_batch eg (pre ++ it :: post) = .error e) := by
  constructor
  · intro eg items
    induction items with
    | nil => exact fun _ => ⟨[], rfl, rfl⟩
    | cons item rest ih =>
      intro hall
      obtain ⟨r, hr⟩ := hall item (List.mem_cons_self _ _)
      obtain ⟨resps, hrest, hids⟩ := ih (fun p hp => hall p (List.mem_cons_of_mem _ hp))
      refine ⟨⟨item.id, r.points, r.meta⟩ :: resps, ?_, ?_⟩
      · simp [forecast_batch, hr, hrest]
      · simp [hids]
  · intro eg pre it post e
    induction pre with
    | nil =>
      intro _ herr
      simp [forecast_batch, herr]
    | cons p rest ih =>
      intro hall herr
      obtain ⟨r, hr⟩ := hall p (List.mem_cons_self _ _)
      have hrec := ih (fun q hq => hall q (List.mem_cons_of_mem _ hq)) herr
      simp [forecast_batch, hr, hrec]

/-- C1 witness: the fail-fast conjunct applied to a concrete batch whose
first item's backend raises. -/
theorem batch_fail_fast_witness :
    forecast_batch enginesEtsBoom
        ([] ++ (⟨reqEts, "item-2"⟩ : BatchForecastRequestItem)
          :: [⟨reqTheta, "item-3"⟩])
      = .error ⟨500, .forecastFailed "boom"⟩ :=
  batch_runs_items_in_order_and_fails_fast.2 enginesEtsBoom []
    ⟨reqEts, "item-2"⟩ [⟨reqTheta, "item-3"⟩] ⟨500, .forecastFailed "boom"⟩
    (fun p hp => absurd hp (List.not_mem_nil p)) rfl

/-! ## Claim C2 — regressor key symmetry -/

/-- C2 counterexample: a PROPHET request whose `regressorsFuture` carries
an extra key `b` (correct horizon length) that is absent from
`regressors` passes validation and reaches the backend, whose result is
returned — the claimed two-directional key symmetry is not enforced. -/
theorem validator_extra_future_key_accepted_counterexample :
    validate_forecast_request reqExtraFutureKey = .ok ()
      ∧ run_forecast enginesEtsBoom reqExtraFutureKey
          = .ok (assemble_response reqExtraFutureKey ([5], [some 4], [some 6]))
      ∧ (reqExtraFutureKey.regressors.getD []).lookup "b" = none
      ∧ (reqExtraFutureKey.regressorsFuture.getD []).lookup "b" = some [2] :=
  ⟨rfl, rfl, rfl, rfl⟩

/-- C2 (amended): when both regressor maps are present, validation checks
symmetry in one direction only — the request is accepted iff the lengths
agree, the model is PROPHET, every key of `regressors` has history length
and appears in `regressorsFuture`, and every value of `regressorsFuture`
has horizon length; keys present only in `regressorsFuture` are NOT
rejected.  Any validation failure is returned before any backend effect
(the error is the same for every engine record). -/
theorem validator_regressor_symmetry_one_directional :
    (∀ (req : ForecastRequest) (regs futs : RegressorMap),
      req.regressors = some regs → req.regressorsFuture = some futs →
      (validate_forecast_request req = .ok () ↔
        req.ds.length = req.y.length ∧ 2 ≤ req.ds.length
        ∧ req.model = .PROPHET
        ∧ (∀ kv ∈ regs, kv.2.length = req.y.length ∧ (futs.lookup kv.1).isSome)
        ∧ (∀ kv ∈ futs, kv.2.length = req.horizon)))
    ∧ (∀ (eg : Engines) (req : ForecastRequest) (e : HTTPError),
        validate_forecast_request req = .error e →
        run_forecast eg req = .error e) := by
  constructor
  · intro req regs futs hregs hfuts
    obtain ⟨model, ds, y, horizon, oregs, ofuts⟩ := req
    dsimp only at hregs hfuts ⊢
    subst hregs
    subst hfuts
    unfold validate_forecast_request
    dsimp only
    split_ifs with h1 h2 h3 h4
    · exact iff_of_false (by simp) (by tauto)
    · exact iff_of_false (by simp) (by omega)
    · refine iff_of_false (by simp) ?_
      rintro ⟨-, -, hm, -, -⟩
      exact h3.2 (by simp [hm])
    · exact absurd h4 (by simp)
    · cases hcr : check_regressors y.length futs regs with
      | error e =>
        refine iff_of_false (by simp) ?_
        rintro ⟨-, -, -, hall, -⟩
        rw [(check_regressors_ok_iff _ _ _).mpr hall] at hcr
        cases hcr
      | ok u =>
        cases u
        dsimp only
        rw [check_future_lengths_ok_iff]
        constructor
        · intro hf
          refine ⟨by omega, by omega, ?_, (check_regressors_ok_iff _ _ _).mp hcr, hf⟩
          by_contra hm
          exact h3 ⟨by simp, hm⟩
        · rintro ⟨-, -, -, -, hf⟩
          exact hf
  · intro eg req e hv
    unfold run_forecast
    rw [hv]

/-- C2 witness: the validation characterisation instantiated at a
symmetric, accepted PROPHET request. -/
theorem validator_regressor_symmetry_witness :
    validate_forecast_request reqProphetValid = .ok () ↔
      reqProphetValid.ds.length = reqProphetValid.y.length
      ∧ 2 ≤ reqProphetValid.ds.length
      ∧ reqProphetValid.model = .PROPHET
      ∧ (∀ kv ∈ ([("a", [1, 2])] : RegressorMap),
          kv.2.length = reqProphetValid.y.length
          ∧ (([("a", [1])] : RegressorMap).lookup kv.1).isSome)
      ∧ (∀ kv ∈ ([("a", [1])] : RegressorMap),
          kv.2.length = reqProphetValid.horizon) :=
  validator_regressor_symmetry_one_directional.1 reqProphetValid
    [("a", [1, 2])] [("a", [1])] rfl rfl

/-! ## Claim C3 — step inference is the median of positive differences -/

/-- C3: for histories of at least 2 timestamps, `infer_step_seconds`
returns the median of the multiset of consecutive positive differences
(even count: truncated average of the two middle values) and falls back
to 86400 seconds when no positive difference exists; in particular the
two testable examples of the spec hold. -/
theorem infer_step_median_of_positive_diffs :
    (∀ ds : List Int, 2 ≤ ds.length →
      infer_step_seconds ds =
        if consecutive_pos_diffs ds = [] then 86400
        else median_of_multiset (consecutive_pos_diffs ds : Multiset Int))
    ∧ infer_step_seconds [0, 3600, 7200, 10800] = 3600
    ∧ infer_step_seconds [0, 100, 10000] = 5000 := by
  refine ⟨?_, by decide, by decide⟩
  intro ds h2
  unfold infer_step_seconds median_of_multiset
  rw [if_neg (by omega)]
  rw [← insertionSort_le_eq_multiset_sort]
  by_cases he : consecutive_pos_diffs ds = []
  · simp [he]
  · simp only [List.isEmpty_iff, he, if_false]

/-- C3 witness: the median characterisation at the two-gap example. -/
theorem infer_step_median_witness :
    infer_step_seconds [0, 100, 10000] =
      if consecutive_pos_diffs [0, 100, 10000] = [] then 86400
      else median_of_multiset (consecutive_pos_diffs [0, 100, 10000] : Multiset Int) :=
  infer_step_median_of_positive_diffs.1 [0, 100, 10000] (by decide)

/-! ## Claim C4 — ETS season-length data-sufficiency guard -/

/-- C4 counterexample: with 26 observations at a step of 604801 seconds
(just coarser than weekly) and a configured season length of 50, the code
selects period 7, although two full 13-cycles of history exist
(2·13 ≤ 26) and the claimed ladder (13, then 7, then 1) selects 13 — the
code's rung 13 additionally requires the step to be at most one week,
which the claim omits. -/
theorem ets_season_ladder_counterexample :
    forecast_ets_season_length dsCoarse 26 (some 50) = 7
      ∧ ets_select_season_length 26 604801 50 = 7
      ∧ ets_season_ladder_claim 26 50 = 13
      ∧ 2 * (13 : Int) ≤ 26 := by decide

/-- C4 (amended): if `n_obs ≥ 2·base` the base period is kept; otherwise
the period degrades through the ladder 13 (only when `n_obs ≥ 26` AND the
inferred step is at most one week), then 7 (when `n_obs ≥ 14`), then 1 —
and any selected seasonal period greater than 1 has at least two full
cycles of history. -/
theorem ets_season_guard_amended (n_obs : Nat) (step base : Int)
    (h2 : 2 ≤ n_obs) :
    (2 * base ≤ (n_obs : Int) → ets_select_season_length n_obs step base = base)
    ∧ ((n_obs : Int) < 2 * base →
        ets_select_season_length n_obs step base =
          if 26 ≤ n_obs ∧ step ≤ 604800 then 13
          else if 14 ≤ n_obs then 7 else 1)
    ∧ (1 < ets_select_season_length n_obs step base →
        2 * ets_select_season_length n_obs step base ≤ (n_obs : Int))
    ∧ (∀ (ds : List Int) (cfg : Option Int),
        forecast_ets_season_length ds n_obs cfg =
          ets_select_season_length n_obs (infer_step_seconds ds)
            (cfg.getD (infer_season_length (infer_step_seconds ds)))) := by
  refine ⟨?_, ?_, ?_, fun ds cfg => rfl⟩
  · intro h
    unfold ets_select_season_length
    rw [if_pos h]
  · intro h
    unfold ets_select_season_length
    rw [if_neg (by omega)]
  · unfold ets_select_season_length
    split
    · omega
    · split
      · rename_i hcond
        intro _
        omega
      · split
        · intro _
          omega
        · omega

/-- C4 witness: the amended guard instantiated at the counterexample
configuration (26 observations, step 604801, base 50). -/
theorem ets_season_guard_witness :
    (2 * (50 : Int) ≤ ((26 : Nat) : Int) →
        ets_select_season_length 26 604801 50 = 50)
    ∧ (((26 : Nat) : Int) < 2 * 50 →
        ets_select_season_length 26 604801 50 =
          if 26 ≤ (26 : Nat) ∧ (604801 : Int) ≤ 604800 then 13
          else if 14 ≤ (26 : Nat) then 7 else 1)
    ∧ (1 < ets_select_season_length 26 604801 50 →
        2 * ets_select_season_length 26 604801 50 ≤ ((26 : Nat) : Int))
    ∧ (∀ (ds : List Int) (cfg : Option Int),
        forecast_ets_season_length ds 26 cfg =
          ets_select_season_length 26 (infer_step_seconds ds)
            (cfg.getD (infer_season_length (infer_step_seconds ds)))) :=
  ets_season_guard_amended 26 604801 50 (by decide)

/-! ## Claim C5 — future timestamps and ISO rendering -/

/-- C5: in every successful forecast response the i-th point (0-based `i`,
so 1-based index `i+1`) carries timestamp
`lastHistoryTimestamp + (i+1)·stepSeconds` rendered by
`iso_from_seconds`, and `isFuture = true`; under the backend contract
(three horizon-length sequences) exactly `horizon` points are produced;
every rendered timestamp ends in a literal `Z` and contains no `.` (hence
no sub-second digits), and the rendering is second-precision ISO-8601 UTC
(checked at the epoch and at 1700000000). -/
theorem forecast_points_timestamps_and_format :
    (∀ (eg : Engines) (req : ForecastRequest) (resp : ForecastResponse),
      run_forecast eg req = .ok resp →
      ∀ (i : Nat) (h : i < resp.points.length),
        (resp.points.get ⟨i, h⟩).t =
          iso_from_seconds
            (req.ds.getLastD 0 + infer_step_seconds req.ds * ((i : Int) + 1))
        ∧ (resp.points.get ⟨i, h⟩).isFuture = true)
    ∧ (∀ (req : ForecastRequest) (out : BackendTriple),
        out.1.length = req.horizon → out.2.1.length = req.horizon →
        out.2.2.length = req.horizon →
        (assemble_response req out).points.length = req.horizon)
    ∧ (∀ s : Int, (iso_from_seconds s).data.getLast? = some 'Z'
        ∧ '.' ∉ (iso_from_seconds s).data)
    ∧ iso_from_seconds 0 = "1970-01-01T00:00:00Z"
    ∧ iso_from_seconds 1700000000 = "2023-11-14T22:13:20Z" := by
  refine ⟨?_, ?_, iso_from_seconds_shape, by decide, by decide⟩
  · intro eg req resp h i hi
    obtain ⟨hv, out, hd, rfl⟩ := run_forecast_ok_inv h
    exact build_points_get _ _ _ _ _ i hi
  · intro req out h1 h2 h3
    show (build_points _ _ out.1 out.2.1 out.2.2).length = req.horizon
    simp [build_points, List.enum_length, List.length_zip]
    omega

/-- C5 witness: the timestamp formula for the single point of a concrete
THETA response. -/
theorem forecast_points_timestamps_witness :
    ((assemble_response reqTheta ([1], [none], [none])).points.get
          ⟨0, by decide⟩).t =
        iso_from_seconds
          (reqTheta.ds.getLastD 0
            + infer_step_seconds reqTheta.ds * ((0 : Int) + 1))
      ∧ ((assemble_response reqTheta ([1], [none], [none])).points.get
          ⟨0, by decide⟩).isFuture = true :=
  forecast_points_timestamps_and_format.1 enginesEtsBoom reqTheta
    (assemble_response reqTheta ([1], [none], [none])) rfl 0 (by decide)

/-! ## Claim C6 — intervalLevel reporting -/

/-- C6: a successful response reports `intervalLevel = 0.95` exactly when
some produced point has a non-null lower bound and `none` exactly when
every point's lower bound is null; a NEURALPROPHET forecast, whose bound
lists are fabricated as all-`None` by its adapter, always reports
`intervalLevel = none`. -/
theorem interval_level_iff_lower_bounds :
    (∀ (eg : Engines) (req : ForecastRequest) (resp : ForecastResponse),
      run_forecast eg req = .ok resp →
      (resp.meta.intervalLevel = some (0.95 : ℚ) ↔
        ∃ pt ∈ resp.points, pt.yhatLower.isSome)
      ∧ (resp.meta.intervalLevel = none ↔ ∀ pt ∈ resp.points, pt.yhatLower = none))
    ∧ (∀ (eg : Engines) (req : ForecastRequest) (resp : ForecastResponse),
      req.model = .NEURALPROPHET → run_forecast eg req = .ok resp →
      resp.meta.intervalLevel = none) := by
  constructor
  · intro eg req resp h
    obtain ⟨hv, out, hd, rfl⟩ := run_forecast_ok_inv h
    rw [assemble_intervalLevel]
    by_cases hany : (assemble_response req out).points.any (fun p => p.yhatLower.isSome)
    · rw [if_pos hany]
      rw [List.any_eq_true] at hany
      constructor
      · exact ⟨fun _ => hany, fun _ => rfl⟩
      · constructor
        · intro hc
          exact absurd hc (by simp)
        · intro hall
          obtain ⟨pt, hpt, hsome⟩ := hany
          rw [hall pt hpt] at hsome
          exact absurd hsome (by simp)
    · rw [if_neg hany]
      simp only [List.any_eq_true, not_exists, not_and] at hany
      constructor
      · constructor
        · intro hc
          exact absurd hc (by simp)
        · intro hex
          obtain ⟨pt, hpt, hsome⟩ := hex
          exact absurd hsome (by simpa using hany pt hpt)
      · constructor
        · intro _ pt hpt
          have h5 := hany pt hpt
          simpa [Option.isSome_iff_ne_none] using h5
        · exact fun _ => rfl
  · intro eg req resp hm h
    obtain ⟨hv, out, hd, rfl⟩ := run_forecast_ok_inv h
    rw [dispatch_neuralprophet hm] at hd
    unfold forecast_neuralprophet at hd
    split at hd
    · exact absurd hd (by simp)
    · rename_i ys hys
      injection hd with hout
      rw [assemble_intervalLevel, if_neg ?_]
      intro hc
      rw [List.any_eq_true] at hc
      obtain ⟨pt, hpt, hsome⟩ := hc
      have hnone : pt.yhatLower = none := by
        apply build_points_lower_none (req.ds.getLastD 0) (infer_step_seconds req.ds)
          out.1 ys.length out.2.2 pt
        have hpts : (assemble_response req out).points =
            build_points (req.ds.getLastD 0) (infer_step_seconds req.ds)
              out.1 out.2.1 out.2.2 := rfl
        rw [hpts] at hpt
        rw [← hout] at hpt ⊢
        exact hpt
      rw [hnone] at hsome
      exact absurd hsome (by simp)

/-- C6 witness: a concrete NEURALPROPHET response carries
`intervalLevel = none`. -/
theorem interval_level_witness :
    (assemble_response reqNeural
        ([0], List.replicate 1 none, List.replicate 1 none)).meta.intervalLevel
      = none :=
  interval_level_iff_lower_bounds.2 enginesEtsBoom reqNeural
    (assemble_response reqNeural ([0], List.replicate 1 none, List.replicate 1 none))
    rfl rfl

/-! ## Claim C7 — metrics calculator -/

/-- C7: `compute_metrics` truncates both sequences to the shorter length;
returns all metrics null on an empty input; its MAPE is null exactly when
every truncated actual is zero (zero-actual positions are excluded, not
infinite); and the spec's two examples hold, with the code's RMSE being
the square root of the returned mean-square slot (zero here). -/
theorem compute_metrics_props :
    (∀ y_true y_pred : List ℚ,
      compute_metrics y_true y_pred =
        compute_metrics (y_true.take (min y_true.length y_pred.length))
          (y_pred.take (min y_true.length y_pred.length)))
    ∧ (∀ y_true y_pred : List ℚ, y_true = [] ∨ y_pred = [] →
        compute_metrics y_true y_pred = (none, none, none))
    ∧ (∀ y_true y_pred : List ℚ, y_true ≠ [] → y_pred ≠ [] →
        ((compute_metrics y_true y_pred).2.2 = none ↔
          ∀ x ∈ y_true.take (min y_true.length y_pred.length), x = 0))
    ∧ compute_metrics [1, 2, 3] [1, 2, 3] = (some 0, some 0, some 0)
    ∧ Real.sqrt (((compute_metrics [1, 2, 3] [1, 2, 3]).2.1).getD 1 : ℚ) = 0
    ∧ (compute_metrics [0, 2] [1, 2]).2.2 = some 0 := by
  refine ⟨?_, ?_, ?_, by norm_num [compute_metrics], ?_,
    by norm_num [compute_metrics]⟩
  · intro a p
    by_cases h : a.length = 0 ∨ p.length = 0
    · unfold compute_metrics
      rw [if_pos h, if_pos (by simp only [List.length_take]; omega)]
    · unfold compute_metrics
      rw [if_neg h, if_neg (by simp only [List.length_take]; omega)]
      have h1 : (a.take (min a.length p.length)).length = min a.length p.length := by
        rw [List.length_take]
        exact Nat.min_eq_left (Nat.min_le_left _ _)
      have h2 : (p.take (min a.length p.length)).length = min a.length p.length := by
        rw [List.length_take]
        exact Nat.min_eq_left (Nat.min_le_right _ _)
      simp only [h1, h2, Nat.min_self, List.take_take]
  · intro a p h
    have h0 : a.length = 0 ∨ p.length = 0 := by
      rcases h with h | h <;> simp [h]
    unfold compute_metrics
    rw [if_pos h0]
  · intro a p ha hp
    unfold compute_metrics
    rw [if_neg (by simp [List.length_eq_zero]; tauto)]
    have h1 : (a.take (min a.length p.length)).length = min a.length p.length := by
      rw [List.length_take]
      exact Nat.min_eq_left (Nat.min_le_left _ _)
    have h2 : (p.take (min a.length p.length)).length = min a.length p.length := by
      rw [List.length_take]
      exact Nat.min_eq_left (Nat.min_le_right _ _)
    simp only []
    constructor
    · intro hnone
      by_cases hc : ((a.take (min a.length p.length)).zip
          (p.take (min a.length p.length))).filter (fun r => r.1 ≠ 0) = []
      · exact (filter_fst_ne_zero_eq_nil_iff _ _ (by omega)).mp hc
      · exfalso
        rw [if_neg (by simpa [List.length_eq_zero] using hc)] at hnone
        exact Option.some_ne_none _ hnone
    · intro hall
      rw [if_pos]
      rw [List.length_eq_zero]
      exact (filter_fst_ne_zero_eq_nil_iff _ _ (by omega)).mpr hall
  · have hmse : (compute_metrics [1, 2, 3] [1, 2, 3]).2.1 = some 0 := by
      norm_num [compute_metrics]
    rw [hmse]
    norm_num

/-- C7 witness: the empty-input conjunct at a concrete input. -/
theorem compute_metrics_witness :
    compute_metrics [] [1] = (none, none, none) :=
  compute_metrics_props.2.1 [] [1] (Or.inl rfl)

/-! ## Claim C8 — regressors rejected for non-PROPHET models -/

/-- C8: a request with non-null `regressors` and a model other than
PROPHET is rejected with a 400 validation error, and the (identical)
error is produced for every engine record — so no backend adapter is ever
consulted. -/
theorem non_prophet_regressors_rejected (req : ForecastRequest)
    (hreg : req.regressors.isSome) (hm : req.model ≠ .PROPHET) :
    ∃ e : HTTPError, e.status = 400
      ∧ ∀ eg : Engines, run_forecast eg req = .error e := by
  have hv : ∃ e : HTTPError, e.status = 400
      ∧ validate_forecast_request req = .error e := by
    unfold validate_forecast_request
    split_ifs with h1 h2 h3
    · exact ⟨_, rfl, rfl⟩
    · exact ⟨_, rfl, rfl⟩
    · exact ⟨_, rfl, rfl⟩
    all_goals exact absurd ⟨hreg, hm⟩ h3
  obtain ⟨e, he, hval⟩ := hv
  refine ⟨e, he, fun eg => ?_⟩
  unfold run_forecast
  rw [hval]

/-- C8 witness: an ETS request carrying regressors is rejected with a 400
error for every engine record. -/
theorem non_prophet_regressors_witness :
    ∃ e : HTTPError, e.status = 400
      ∧ ∀ eg : Engines, run_forecast eg reqEtsWithRegressors = .error e :=
  non_prophet_regressors_rejected reqEtsWithRegressors rfl (by decide)

/-! ## Claim C9 — frequency classification boundaries -/

/-- C9: `infer_frequency` classifies a positive step as sub-daily ("h")
iff it is at most 3600 s, daily ("D") iff in (3600, 86400], weekly ("W")
iff in (86400, 604800], and monthly-or-coarser ("MS") iff above 604800 —
each boundary inclusive on the finer class — with the spec's four
boundary examples. -/
theorem infer_frequency_classification :
    (∀ step : Int, 0 < step →
      (infer_frequency step = "h" ↔ step ≤ 3600)
      ∧ (infer_frequency step = "D" ↔ 3600 < step ∧ step ≤ 86400)
      ∧ (infer_frequency step = "W" ↔ 86400 < step ∧ step ≤ 604800)
      ∧ (infer_frequency step = "MS" ↔ 604800 < step))
    ∧ infer_frequency 3600 = "h" ∧ infer_frequency 3601 = "D"
    ∧ infer_frequency 604800 = "W" ∧ infer_frequency 604801 = "MS" := by
  refine ⟨?_, by decide, by decide, by decide, by decide⟩
  intro step _
  unfold infer_frequency
  split_ifs with h1 h2 h3 <;> refine ⟨?_, ?_, ?_, ?_⟩ <;> constructor <;>
    intro h4 <;> first
      | rfl
      | omega
      | (exact absurd h4 (by decide))

/-- C9 witness: the classification instantiated at a two-hour step. -/
theorem infer_frequency_witness :
    (infer_frequency 7200 = "h" ↔ (7200 : Int) ≤ 3600)
    ∧ (infer_frequency 7200 = "D" ↔ (3600 : Int) < 7200 ∧ (7200 : Int) ≤ 86400)
    ∧ (infer_frequency 7200 = "W" ↔ (86400 : Int) < 7200 ∧ (7200 : Int) ≤ 604800)
    ∧ (infer_frequency 7200 = "MS" ↔ (604800 : Int) < 7200) :=
  infer_frequency_classification.1 7200 (by decide)

/-! ## Claim C10 — step inference is total and positive -/

/-- C10: on every timestamp list whatsoever — empty, singleton, unsorted,
or with duplicates — `infer_step_seconds` returns at least 1 second. -/
theorem infer_step_seconds_pos (ds : List Int) : 1 ≤ infer_step_seconds ds := by
  unfold infer_step_seconds
  split
  · norm_num
  · by_cases he : (consecutive_pos_diffs ds).isEmpty
    · simp [he]
    · simp only [he, if_false]
      set sorted := List.insertionSort (fun a b => a ≤ b) (consecutive_pos_diffs ds)
        with hsorted
      have hpos : ∀ d ∈ sorted, 0 < d := by
        intro d hdmem
        exact consecutive_pos_diffs_pos
          ((List.perm_insertionSort _ _).mem_iff.mp hdmem)
      have hne : sorted ≠ [] := by
        intro h0
        have hperm :=
          List.perm_insertionSort (fun a b : Int => a ≤ b) (consecutive_pos_diffs ds)
        rw [← hsorted, h0] at hperm
        have : consecutive_pos_diffs ds = [] := hperm.symm.eq_nil
        simp [this] at he
      have hlen : 0 < sorted.length := List.length_pos.mpr hne
      have hmid : sorted.length / 2 < sorted.length := Nat.div_lt_self hlen one_lt_two
      have hmid2 : sorted.length / 2 - 1 < sorted.length :=
        lt_of_le_of_lt (Nat.sub_le _ _) hmid
      have hb : 0 < sorted.getD (sorted.length / 2) 0 := by
        rw [List.getD_eq_getElem?_getD, List.getElem?_eq_getElem hmid]
        exact hpos _ (List.getElem_mem hmid)
      have ha : 0 < sorted.getD (sorted.length / 2 - 1) 0 := by
        rw [List.getD_eq_getElem?_getD, List.getElem?_eq_getElem hmid2]
        exact hpos _ (List.getElem_mem hmid2)
      split
      · omega
      · omega

/-- C10 witness: positivity at a duplicate-only list (no positive
differences). -/
theorem infer_step_seconds_pos_witness : 1 ≤ infer_step_seconds [5, 5, 5] :=
  infer_step_seconds_pos [5, 5, 5]

end Kairos
